import Mathlib

/-!
Verification of the session-and-credential management core of the
`stack_modular` repository.

The development shallowly embeds the auth/session/token logic:

* `validatePasswordStrength` translates `BcryptAdapter.validatePasswordStrength`
  (src/core/adapters/lib/jwt.adapter.ts, second half of the file).
* the token model and `generateAccessToken` / `generateRefreshToken` /
  `generateSessionTokens` / `getUserFromToken` translate
  src/shared/utils/jwt.util.ts; the JWT signing primitive is an external
  collaborator, so a signed token is represented by its claims record
  (HS256 signing is deterministic, hence tokens signed over equal claims
  are equal, and the verifier recovers exactly the claims).
* `SessionRepository.*` translate src/modules/session/session.module.ts
  (session.repository part): the TypeORM table is a list of rows plus an
  id counter, `findOne` is `List.find?`, bulk `update` is `List.map`.
* `SessionService.*` and `AuthService.*` translate
  src/modules/auth/auth.service.ts (which holds both services); the
  database side effects are made explicit by threading the stores.
* `AuthRepository.*` translate the auth repository (src/unnamed/part_008)
  and `AuthController.forgotPassword` translates src/unnamed/part_007.

Time is a natural-number clock in milliseconds, passed explicitly where the
source reads `Date.now()` / `new Date()`.
-/

namespace StackModular

/-! ## Credential verifier: password strength
Translation of `BcryptAdapter.validatePasswordStrength`. JavaScript regex
character classes are rendered over the string's character list; `\s` is the
ECMAScript whitespace set. `String.length` counts code points where
JavaScript counts UTF-16 units; the two agree on all inputs below U+10000. -/

/-- Characters matched by the source's `/[!@#$%^&*(),.?":\x7b\x7d|<>]/` class. -/
def passwordSpecialChars : List Char :=
  ['!', '@', '#', '$', '%', '^', '&', '*', '(', ')', ',', '.', '?', '\"',
   ':', '\x7b', '\x7d', '|', '<', '>']

/-- Characters matched by the ECMAScript `\s` class used in `/\s/.test`. -/
def jsWhitespaceChars : List Char :=
  ['\t', '\n', '\x0b', '\x0c', '\r', '\x20', '\xa0',
   '\u1680', '\u2000', '\u2001', '\u2002', '\u2003', '\u2004', '\u2005',
   '\u2006', '\u2007', '\u2008', '\u2009', '\u200a', '\u2028', '\u2029',
   '\u202f', '\u205f', '\u3000', '\ufeff']

/-- Test of `/[A-Z]/` on the password. -/
def hasUppercaseChar (s : String) : Bool :=
  s.data.any fun c => 'A' ≤ c && c ≤ 'Z'

/-- Test of `/[a-z]/` on the password. -/
def hasLowercaseChar (s : String) : Bool :=
  s.data.any fun c => 'a' ≤ c && c ≤ 'z'

/-- Test of `/\d/` on the password. -/
def hasDigitChar (s : String) : Bool :=
  s.data.any fun c => '0' ≤ c && c ≤ '9'

/-- Test of the special-character class on the password. -/
def hasSpecialChar (s : String) : Bool :=
  s.data.any fun c => passwordSpecialChars.contains c

/-- Test of `/\s/` on the password. -/
def containsJsWhitespace (s : String) : Bool :=
  s.data.any fun c => jsWhitespaceChars.contains c

/-- Result shape of `validatePasswordStrength` (isValid, errors, score). -/
structure PasswordStrength where
  isValid : Bool
  errors : List String
  score : Int
deriving Repr, DecidableEq

/-- Translation of `BcryptAdapter.validatePasswordStrength`: the five checks
each push an error or add one point, whitespace pushes an error and subtracts
one point, the score is clamped to `[0, 5]` and validity is emptiness of the
error list. -/
def validatePasswordStrength (password : String) : PasswordStrength :=
  let lenOk := decide (8 ≤ password.length)
  let upperOk := hasUppercaseChar password
  let lowerOk := hasLowercaseChar password
  let digitOk := hasDigitChar password
  let specialOk := hasSpecialChar password
  let hasSpace := containsJsWhitespace password
  let errors : List String :=
    (if lenOk then [] else ["Password must be at least 8 characters long"]) ++
    (if upperOk then [] else ["Password must contain at least one uppercase letter"]) ++
    (if lowerOk then [] else ["Password must contain at least one lowercase letter"]) ++
    (if digitOk then [] else ["Password must contain at least one number"]) ++
    (if specialOk then [] else ["Password must contain at least one special character"]) ++
    (if hasSpace then ["Password cannot contain spaces"] else [])
  let score : Int :=
    (if lenOk then 1 else 0) + (if upperOk then 1 else 0) +
    (if lowerOk then 1 else 0) + (if digitOk then 1 else 0) +
    (if specialOk then 1 else 0) - (if hasSpace then 1 else 0)
  { isValid := errors.isEmpty
    errors := errors
    score := max 0 (min 5 score) }

/-- Reference scoring written from the claim's words (for comparison with the
source translation): +1 per satisfied positive criterion, -1 for whitespace. -/
def specPasswordScore (p : String) : Int :=
  (if 8 ≤ p.length then 1 else 0) + (if hasUppercaseChar p then 1 else 0) +
  (if hasLowercaseChar p then 1 else 0) + (if hasDigitChar p then 1 else 0) +
  (if hasSpecialChar p then 1 else 0) - (if containsJsWhitespace p then 1 else 0)

/-! ## Token issuer
Translation of src/shared/utils/jwt.util.ts. The `jsonwebtoken` primitive is
an external collaborator; a well-formed signed token is identified with its
claims payload (the secret-keyed HS256 signature is deterministic, so equal
payloads give equal token strings and distinct payloads give distinct
tokens), and any other string is `malformed`. `jwt.sign` stamps the payload
with the issuance instant (`iat`) and the derived expiry (`exp`);
`jwt.verify` rejects malformed input and tokens past their expiry. -/

/-- Claims payload carried by a signed token, in the wire shape
`\x7b sub, sessionId, email?, authEntity, role?, type, iat, exp \x7d`.
`email` and `role` are optional claims: access tokens carry `email` while
refresh tokens do not. Session ids are naturals; the store assigns real ids
from 1, so `sessionId = 0` never denotes a persisted session. -/
structure TokenClaims where
  sub : String
  sessionId : Nat
  email : Option String
  authEntity : String
  role : Option String
  tokenType : String
  iat : Nat
  exp : Nat
deriving Repr, DecidableEq

/-- A bearer token: either a signed claims payload or a malformed string. -/
inductive Token where
  | malformed (raw : String)
  | signed (claims : TokenClaims)
deriving Repr, DecidableEq

/-- Verification primitive (`jwtAdapter.verify`): fails on malformed tokens
and on tokens whose expiry has passed. -/
def verifyToken (now : Nat) : Token → Option TokenClaims
  | .malformed _ => none
  | .signed c => if now < c.exp then some c else none

/-- Result of `getUserFromToken`: the claims re-packaged for callers. -/
structure TokenData where
  userId : String
  sessionId : Nat
  email : Option String
  authEntity : String
  role : Option String
  tokenType : String
deriving Repr, DecidableEq

/-- Translation of `getUserFromToken`: verify, then project the claims;
`null` on any verification failure. -/
def getUserFromToken (now : Nat) (token : Token) : Option TokenData :=
  match verifyToken now token with
  | none => none
  | some c =>
      some { userId := c.sub, sessionId := c.sessionId, email := c.email,
             authEntity := c.authEntity, role := c.role, tokenType := c.tokenType }

/-- Translation of `generateAccessToken`: type `access`, one-hour expiry,
the `role` claim is spread in only when truthy (`...(role && \x7b role \x7d)`). -/
def generateAccessToken (userId : String) (sessionId : Nat) (email : String)
    (authEntity : String) (role : Option String) (now : Nat) : TokenClaims :=
  { sub := userId, sessionId := sessionId, email := some email,
    authEntity := authEntity,
    role := match role with
            | some r => if r = "" then none else some r
            | none => none,
    tokenType := "access", iat := now, exp := now + 3600000 }

/-- Translation of `generateRefreshToken`: type `refresh`, seven-day expiry,
no email and no role claim. -/
def generateRefreshToken (userId : String) (sessionId : Nat)
    (authEntity : String) (now : Nat) : TokenClaims :=
  { sub := userId, sessionId := sessionId, email := none,
    authEntity := authEntity, role := none,
    tokenType := "refresh", iat := now, exp := now + 604800000 }

/-- Result shape of `generateSessionTokens`. -/
structure SessionTokens where
  accessToken : Token
  refreshToken : Token
  accessTokenExpires : Nat
  refreshTokenExpires : Nat
deriving Repr, DecidableEq

/-- Translation of `generateSessionTokens`: both tokens plus their expiry
stamps (`Date.now() + 3600000` and `Date.now() + 7 * 24 * 3600000`). -/
def generateSessionTokens (userId : String) (sessionId : Nat) (email : String)
    (authEntity : String) (role : Option String) (now : Nat) : SessionTokens :=
  { accessToken := .signed (generateAccessToken userId sessionId email authEntity role now)
    refreshToken := .signed (generateRefreshToken userId sessionId authEntity now)
    accessTokenExpires := now + 3600000
    refreshTokenExpires := now + 604800000 }

/-! ## Session rows and the session store
Translation of the `Session` entity columns used by the repository and of
`SessionRepository` (src/modules/session/session.module.ts). The TypeORM
table is a list of rows plus the next generated id (real ids start at 1);
`findOne` returns the first matching row and bulk `update` rewrites every
matching row. -/

/-- A session row. Column set follows the repository's reads and writes;
`refreshToken` / `refreshTokenExpires` are nullable as in
`SessionRepository.createSession`'s parameter shape. -/
structure Session where
  id : Nat
  userId : String
  userEmail : String
  authEntity : String
  accessToken : Token
  refreshToken : Option Token
  accessTokenExpires : Nat
  refreshTokenExpires : Option Nat
  expiresAt : Nat
  isActive : Bool
  lastActivity : Nat
  ipAddress : Option String
  userAgent : Option String
  deviceName : Option String
  deviceType : Option String
  metadata : Option String
deriving Repr, DecidableEq

/-- Modelled from the spec: `session.model.ts` is not under src (only its
callers are). The spec's §4.4 liveness check behind `isValidSession` is that
the session is ACTIVE and not past its overall expiry. -/
def Session.isValidSession (s : Session) (now : Nat) : Bool :=
  s.isActive && now < s.expiresAt

/-- Modelled from the spec: `session.model.ts` is not under src. §4.4
`refreshTokens` requires the refresh token not expired, i.e. the stored
refresh-token expiry (when present) lies in the future. -/
def Session.isRefreshTokenValid (s : Session) (now : Nat) : Bool :=
  match s.refreshTokenExpires with
  | some e => now < e
  | none => false

/-- The session table: persisted rows plus the next auto-generated id. -/
structure SessionStore where
  sessions : List Session
  nextId : Nat
deriving Repr, DecidableEq

/-- Store well-formedness: ids are the store's own invariant — every
persisted id is positive and below the generator, and ids are unique. -/
def SessionStore.wf (st : SessionStore) : Prop :=
  (∀ s ∈ st.sessions, 0 < s.id ∧ s.id < st.nextId) ∧
  (st.sessions.map Session.id).Nodup

instance (st : SessionStore) : Decidable st.wf := by
  unfold SessionStore.wf; infer_instance

/-- Argument shape of `SessionRepository.createSession`. -/
structure NewSessionData where
  userId : String
  authEntity : String
  userEmail : String
  accessToken : Token
  refreshToken : Option Token
  accessTokenExpires : Nat
  refreshTokenExpires : Option Nat
  ipAddress : Option String := none
  userAgent : Option String := none
  deviceName : Option String := none
  deviceType : Option String := none
  metadata : Option String := none
deriving Repr, DecidableEq

/-- Translation of `SessionRepository.createSession`: insert a fresh active
row whose `expiresAt` is the refresh expiry, defaulted to seven days. -/
def SessionRepository.createSession (st : SessionStore) (d : NewSessionData)
    (now : Nat) : Session × SessionStore :=
  let row : Session :=
    { id := st.nextId, userId := d.userId, userEmail := d.userEmail,
      authEntity := d.authEntity, accessToken := d.accessToken,
      refreshToken := d.refreshToken,
      accessTokenExpires := d.accessTokenExpires,
      refreshTokenExpires := d.refreshTokenExpires,
      expiresAt := d.refreshTokenExpires.getD (now + 7 * 24 * 3600000),
      isActive := true, lastActivity := now,
      ipAddress := d.ipAddress, userAgent := d.userAgent,
      deviceName := d.deviceName, deviceType := d.deviceType,
      metadata := d.metadata }
  (row, { sessions := st.sessions ++ [row], nextId := st.nextId + 1 })

/-- Translation of `findActiveSessionByEmailAndEntity`. -/
def SessionRepository.findActiveSessionByEmailAndEntity (st : SessionStore)
    (userEmail authEntity : String) : Option Session :=
  st.sessions.find? fun s =>
    s.userEmail == userEmail && s.authEntity == authEntity && s.isActive

/-- Translation of `findActiveSessionById`. -/
def SessionRepository.findActiveSessionById (st : SessionStore) (sessionId : Nat) :
    Option Session :=
  st.sessions.find? fun s => s.id == sessionId && s.isActive

/-- Translation of `findSessionByRefreshToken`: matches the stored raw
refresh-token value, active or not. -/
def SessionRepository.findSessionByRefreshToken (st : SessionStore) (t : Token) :
    Option Session :=
  st.sessions.find? fun s => s.refreshToken == some t

/-- Translation of `BaseRepository.findById` as used on the session table. -/
def SessionRepository.findById (st : SessionStore) (sessionId : Nat) :
    Option Session :=
  st.sessions.find? fun s => s.id == sessionId

/-- Row effect of `deactivateUserSessionsInEntity`: flip `isActive` and bump
`lastActivity` on an active row of the pair, leave other rows alone. -/
def deactivatePairRow (userEmail authEntity : String) (now : Nat) (s : Session) :
    Session :=
  if s.userEmail == userEmail && s.authEntity == authEntity && s.isActive
  then { s with isActive := false, lastActivity := now }
  else s

/-- Translation of `deactivateUserSessionsInEntity`: bulk update applying
the row effect to every row (only the pair's active rows change). -/
def SessionRepository.deactivateUserSessionsInEntity (st : SessionStore)
    (userEmail authEntity : String) (now : Nat) : SessionStore :=
  { st with sessions := st.sessions.map (deactivatePairRow userEmail authEntity now) }

/-- Row effect of `deactivateAllUserSessions` (all entities). -/
def deactivateEmailRow (userEmail : String) (now : Nat) (s : Session) : Session :=
  if s.userEmail == userEmail && s.isActive
  then { s with isActive := false, lastActivity := now }
  else s

/-- Translation of `deactivateAllUserSessions` (all entities). -/
def SessionRepository.deactivateAllUserSessions (st : SessionStore)
    (userEmail : String) (now : Nat) : SessionStore :=
  { st with sessions := st.sessions.map (deactivateEmailRow userEmail now) }

/-- Row effect of `deactivateSession` (update by primary key). -/
def deactivateIdRow (sessionId : Nat) (now : Nat) (s : Session) : Session :=
  if s.id == sessionId
  then { s with isActive := false, lastActivity := now }
  else s

/-- Translation of `deactivateSession` (update by primary key). -/
def SessionRepository.deactivateSession (st : SessionStore) (sessionId : Nat)
    (now : Nat) : SessionStore :=
  { st with sessions := st.sessions.map (deactivateIdRow sessionId now) }

/-- Row effect of `updateSessionTokens` on the addressed row: always write
the access token and bump activity; the optional arguments are written only
when supplied (the source guards each with a truthiness test — generated
token strings and `Date` values are never falsy), and a supplied refresh
expiry also rewrites `expiresAt`. -/
def updateTokensRow (sessionId : Nat) (accessToken : Token)
    (refreshToken : Option Token) (accessTokenExpires refreshTokenExpires : Option Nat)
    (now : Nat) (s : Session) : Session :=
  if s.id == sessionId then
    let s1 := { s with accessToken := accessToken, lastActivity := now }
    let s2 := match accessTokenExpires with
              | some e => { s1 with accessTokenExpires := e }
              | none => s1
    let s3 := match refreshToken with
              | some t => { s2 with refreshToken := some t }
              | none => s2
    match refreshTokenExpires with
    | some e => { s3 with refreshTokenExpires := some e, expiresAt := e }
    | none => s3
  else s

/-- Translation of `updateSessionTokens` (update by primary key). -/
def SessionRepository.updateSessionTokens (st : SessionStore) (sessionId : Nat)
    (accessToken : Token) (refreshToken : Option Token)
    (accessTokenExpires refreshTokenExpires : Option Nat) (now : Nat) :
    SessionStore :=
  { st with sessions := st.sessions.map (updateTokensRow sessionId accessToken
      refreshToken accessTokenExpires refreshTokenExpires now) }

/-- JavaScript truthiness of an optional string (absent or empty is falsy). -/
def strTruthy : Option String → Bool
  | none => false
  | some s => !(s == "")

/-- Row effect of `updateSessionActivity`: bump `lastActivity`, write the
ip / user-agent only when truthy. -/
def updateActivityRow (sessionId : Nat) (ipAddress userAgent : Option String)
    (now : Nat) (s : Session) : Session :=
  if s.id == sessionId then
    let s1 := { s with lastActivity := now }
    let s2 := if strTruthy ipAddress then { s1 with ipAddress := ipAddress } else s1
    if strTruthy userAgent then { s2 with userAgent := userAgent } else s2
  else s

/-- Translation of `updateSessionActivity` (update by primary key). -/
def SessionRepository.updateSessionActivity (st : SessionStore) (sessionId : Nat)
    (ipAddress userAgent : Option String) (now : Nat) : SessionStore :=
  { st with sessions := st.sessions.map (updateActivityRow sessionId ipAddress userAgent now) }

/-! ## Identity records and the auth repository
Translation of the auth repository (src/unnamed/part_008) over a list of
identity rows. The user-status enum file is not under src; the spec's data
model gives status ∈ \x7b active, inactive, locked \x7d. -/

/-- Modelled from the spec: `user.enums.ts` is not under src. The spec's
identity record has status active / inactive / locked. -/
inductive UserStatus where
  | ACTIVE
  | INACTIVE
  | LOCKED
deriving Repr, DecidableEq

/-- An identity row, with the credential and security columns read and
written by the auth repository. -/
structure AuthUser where
  id : String
  email : String
  username : Option String := none
  password : String
  status : UserStatus := .ACTIVE
  isEmailVerified : Bool := false
  loginAttempts : Nat := 0
  lockedUntil : Option Nat := none
  roles : String := ""
  resetPasswordToken : Option String := none
  resetPasswordExpires : Option Nat := none
  verificationCode : Option String := none
  verificationCodeExpires : Option Nat := none
  lastLoginAt : Option Nat := none
  loginCount : Nat := 0
  lastLoginIp : Option String := none
  lastUserAgent : Option String := none
deriving Repr, DecidableEq

/-- Models the external bcrypt capability `hash(plaintext) -> digest`; the
collaborator contract only requires that `compare` accepts exactly the
digests of the plaintext, which this deterministic digest realises. -/
def hashPassword (password : String) : String :=
  "bcrypt$" ++ password

/-- Models the external bcrypt capability `compare(plaintext, digest)`. -/
def comparePassword (password digest : String) : Bool :=
  digest == hashPassword password

/-- Translation of `AuthRepository.findByEmail` (first row by email). -/
def AuthRepository.findByEmail (users : List AuthUser) (email : String) :
    Option AuthUser :=
  users.find? fun u => u.email == email

/-- Translation of `AuthRepository.findByEmailWithPassword`: same lookup,
with the credential columns selected. -/
def AuthRepository.findByEmailWithPassword (users : List AuthUser) (email : String) :
    Option AuthUser :=
  users.find? fun u => u.email == email

/-- Translation of `AuthRepository.findByResetToken`: token match plus an
unexpired reset expiry (`resetPasswordExpires > now`). -/
def AuthRepository.findByResetToken (users : List AuthUser) (token : String)
    (now : Nat) : Option AuthUser :=
  users.find? fun u =>
    u.resetPasswordToken == some token &&
    (match u.resetPasswordExpires with
     | some e => now < e
     | none => false)

/-- Translation of `UserRepository.findById` (BaseRepository lookup on the
same configured identity table). -/
def UserRepository.findById (users : List AuthUser) (userId : String) :
    Option AuthUser :=
  users.find? fun u => u.id == userId

/-- Lockout configuration (`MAX_LOGIN_ATTEMPTS`, `LOCK_DURATION_MINUTES`),
defaulting to 5 attempts / 15 minutes. -/
structure AuthConfig where
  maxLoginAttempts : Nat := 5
  lockDurationMinutes : Nat := 15
deriving Repr, DecidableEq

/-- Translation of `AuthRepository.incrementLoginAttempts`: read the current
counter, add one, and set `lockedUntil` to now plus the configured duration
once the configured maximum is reached. -/
def incrementAttemptsRow (userId : String) (newAttempts : Nat) (cfg : AuthConfig)
    (now : Nat) (v : AuthUser) : AuthUser :=
  if v.id == userId then
    if cfg.maxLoginAttempts ≤ newAttempts then
      { v with loginAttempts := newAttempts,
               lockedUntil := some (now + cfg.lockDurationMinutes * 60000) }
    else
      { v with loginAttempts := newAttempts }
  else v

/-- Bulk part of `AuthRepository.incrementLoginAttempts`. -/
def AuthRepository.incrementLoginAttempts (users : List AuthUser) (userId : String)
    (cfg : AuthConfig) (now : Nat) : List AuthUser :=
  match users.find? (fun u => u.id == userId) with
  | none => users
  | some u => users.map (incrementAttemptsRow userId (u.loginAttempts + 1) cfg now)

/-- Translation of `AuthRepository.updateSuccessfulLogin`: reset the counter,
clear the lock, stamp last-login data, bump the login count, and record the
ip / user-agent when truthy. -/
def successfulLoginRow (userId : String) (ipAddress userAgent : Option String)
    (now : Nat) (v : AuthUser) : AuthUser :=
  if v.id == userId then
    let v1 := { v with loginAttempts := 0, lockedUntil := none,
                       lastLoginAt := some now, loginCount := v.loginCount + 1 }
    let v2 := if strTruthy ipAddress then { v1 with lastLoginIp := ipAddress } else v1
    if strTruthy userAgent then { v2 with lastUserAgent := userAgent } else v2
  else v

/-- Bulk part of `AuthRepository.updateSuccessfulLogin`. -/
def AuthRepository.updateSuccessfulLogin (users : List AuthUser) (userId : String)
    (ipAddress userAgent : Option String) (now : Nat) : List AuthUser :=
  users.map (successfulLoginRow userId ipAddress userAgent now)

/-- Translation of `AuthRepository.updatePassword`: write the digest and
clear the reset-token columns. -/
def passwordUpdateRow (userId : String) (hashedPassword : String) (v : AuthUser) :
    AuthUser :=
  if v.id == userId then
    { v with password := hashedPassword,
             resetPasswordToken := none, resetPasswordExpires := none }
  else v

/-- Bulk part of `AuthRepository.updatePassword`. -/
def AuthRepository.updatePassword (users : List AuthUser) (userId : String)
    (hashedPassword : String) : List AuthUser :=
  users.map (passwordUpdateRow userId hashedPassword)

/-- Translation of `AuthRepository.update` as called by
`requestPasswordReset`: persist the freshly set reset-token columns. -/
def resetTokenUpdateRow (userId : String) (token : String) (expires : Nat)
    (v : AuthUser) : AuthUser :=
  if v.id == userId then
    { v with resetPasswordToken := some token,
             resetPasswordExpires := some expires }
  else v

/-- Bulk part of `AuthRepository.update` on the reset-token columns. -/
def AuthRepository.updateResetToken (users : List AuthUser) (userId : String)
    (token : String) (expires : Nat) : List AuthUser :=
  users.map (resetTokenUpdateRow userId token expires)

/-! ## Session service
Translation of `SessionService` (second half of
src/modules/auth/auth.service.ts). Each operation returns its value
together with the session store it leaves behind. -/

/-- Argument shape of `SessionService.createSession`. -/
structure SessionCreateData where
  userId : String
  userEmail : String
  authEntity : String
  ipAddress : Option String := none
  userAgent : Option String := none
  deviceName : Option String := none
  deviceType : Option String := none
  role : Option String := none
  metadata : Option String := none
deriving Repr, DecidableEq

/-- Translation of `SessionService.createSession`: deactivate the pair's
active sessions, issue a provisional token pair under a temporary id
(`generateTemporaryId`, here the parameter `tempId`), persist the row, fetch
the identity's `roles` by id from the user repository (a null row makes the
destructuring throw, rendered as `none`), re-issue the final pair under the
real id, overwrite the stored tokens, and return the re-fetched row with the
final tokens (the source casts the re-fetched row, which exists). -/
def SessionService.createSession (d : SessionCreateData) (tempId : Nat)
    (users : List AuthUser) (st : SessionStore) (now : Nat) :
    Option ((Session × SessionTokens) × SessionStore) :=
  let st1 := SessionRepository.deactivateUserSessionsInEntity st d.userEmail d.authEntity now
  let tokens := generateSessionTokens d.userId tempId d.userEmail d.authEntity none now
  let created := SessionRepository.createSession st1
    { userId := d.userId, userEmail := d.userEmail, authEntity := d.authEntity,
      accessToken := tokens.accessToken,
      refreshToken := some tokens.refreshToken,
      accessTokenExpires := tokens.accessTokenExpires,
      refreshTokenExpires := some tokens.refreshTokenExpires,
      ipAddress := d.ipAddress, userAgent := d.userAgent,
      deviceName := d.deviceName, deviceType := d.deviceType,
      metadata := d.metadata } now
  let session := created.1
  let st2 := created.2
  match UserRepository.findById users session.userId with
  | none => none
  | some u =>
      let finalTokens :=
        generateSessionTokens d.userId session.id d.userEmail d.authEntity (some u.roles) now
      let st3 := SessionRepository.updateSessionTokens st2 session.id
        finalTokens.accessToken (some finalTokens.refreshToken)
        (some finalTokens.accessTokenExpires) (some finalTokens.refreshTokenExpires) now
      match SessionRepository.findById st3 session.id with
      | none => none
      | some refetched => some ((refetched, finalTokens), st3)

/-- The session row `SessionService.createSession` leaves persisted when the
store assigns id `sid`: the freshly inserted active row, with the
provisional tokens overwritten by the final pair issued under `sid` and the
identity's fetched `roles`. -/
def SessionService.createdSession (d : SessionCreateData) (u : AuthUser)
    (sid : Nat) (now : Nat) : Session :=
  { id := sid
    userId := d.userId
    userEmail := d.userEmail
    authEntity := d.authEntity
    accessToken :=
      (generateSessionTokens d.userId sid d.userEmail d.authEntity (some u.roles) now).accessToken
    refreshToken :=
      some (generateSessionTokens d.userId sid d.userEmail d.authEntity (some u.roles) now).refreshToken
    accessTokenExpires := now + 3600000
    refreshTokenExpires := some (now + 604800000)
    expiresAt := now + 604800000
    isActive := true
    lastActivity := now
    ipAddress := d.ipAddress
    userAgent := d.userAgent
    deviceName := d.deviceName
    deviceType := d.deviceType
    metadata := d.metadata }

/-- Translation of `SessionService.validateSession`: active lookup by id,
entity match, model-level liveness; a found-but-dead session is deactivated
as a side effect. -/
def SessionService.validateSession (sessionId : Nat) (authEntity : String)
    (st : SessionStore) (now : Nat) : Option Session × SessionStore :=
  match SessionRepository.findActiveSessionById st sessionId with
  | none => (none, st)
  | some session =>
      if session.authEntity != authEntity then (none, st)
      else if !(session.isValidSession now) then
        (none, SessionRepository.deactivateSession st sessionId now)
      else (some session, st)

/-- Translation of `SessionService.validateTokenAndSession`: verify the
token (null short-circuits, as does a falsy session id), validate the
session, cross-check the stored email and user id against the claims, and
bump activity on success; every failure collapses to `none`. -/
def SessionService.validateTokenAndSession (token : Token) (st : SessionStore)
    (now : Nat) : Option (Session × TokenData) × SessionStore :=
  match getUserFromToken now token with
  | none => (none, st)
  | some tokenData =>
      if tokenData.sessionId == 0 then (none, st)
      else
        match SessionService.validateSession tokenData.sessionId tokenData.authEntity st now with
        | (none, st1) => (none, st1)
        | (some session, st1) =>
            if some session.userEmail != tokenData.email ||
               session.userId != tokenData.userId then
              (none, st1)
            else
              let st2 := SessionRepository.updateSessionActivity st1 session.id none none now
              (some (session, tokenData), st2)

/-- Translation of `SessionService.refreshTokens`: look the session up by
the raw refresh token, require it alive and active, rotate both tokens,
persist, and return the re-fetched row (cast in the source) plus the new
pair; `none` on any failure. -/
def SessionService.refreshTokens (token : Token) (st : SessionStore) (now : Nat) :
    Option (SessionTokens × Session) × SessionStore :=
  match SessionRepository.findSessionByRefreshToken st token with
  | none => (none, st)
  | some session =>
      if !(session.isRefreshTokenValid now) || !session.isActive then (none, st)
      else
        let newTokens :=
          generateSessionTokens session.userId session.id session.userEmail
            session.authEntity none now
        let st1 := SessionRepository.updateSessionTokens st session.id
          newTokens.accessToken (some newTokens.refreshToken)
          (some newTokens.accessTokenExpires) (some newTokens.refreshTokenExpires) now
        match SessionRepository.findById st1 session.id with
        | none => (none, st1)
        | some updated => (some (newTokens, updated), st1)

/-- Translation of `SessionService.logout`. -/
def SessionService.logout (sessionId : Nat) (st : SessionStore) (now : Nat) :
    Bool × SessionStore :=
  (true, SessionRepository.deactivateSession st sessionId now)

/-- Translation of `SessionService.logoutUserFromEntity`. -/
def SessionService.logoutUserFromEntity (userEmail authEntity : String)
    (st : SessionStore) (now : Nat) : Bool × SessionStore :=
  (true, SessionRepository.deactivateUserSessionsInEntity st userEmail authEntity now)

/-- Translation of `SessionService.logoutUserFromAllEntities`. -/
def SessionService.logoutUserFromAllEntities (userEmail : String)
    (st : SessionStore) (now : Nat) : Bool × SessionStore :=
  (true, SessionRepository.deactivateAllUserSessions st userEmail now)

/-! ## Auth service
Translation of `AuthService` (first half of
src/modules/auth/auth.service.ts). The thrown business errors become an
explicit error type; the identity table and session store are threaded. -/

/-- Login request data. -/
structure LoginData where
  email : String
  password : String
  ipAddress : Option String := none
  userAgent : Option String := none
  deviceName : Option String := none
  deviceType : Option String := none
deriving Repr, DecidableEq

/-- The login failures thrown by `AuthService.login`; `internalError` models
an uncaught runtime exception (the source destructures a possibly-null user
row inside session creation). -/
inductive LoginError where
  | invalidCredentials
  | accountLocked (minutesLeft : Nat)
  | accountNotActive
  | internalError
deriving Repr, DecidableEq

/-- Successful login payload: the identity, the created session and the
final token pair. -/
structure LoginOk where
  user : AuthUser
  session : Session
  tokens : SessionTokens
deriving Repr, DecidableEq

/-- Translation of the lock check `user.lockedUntil && user.lockedUntil >
new Date()`: the lock is in force when a lock-until instant is set and lies
strictly in the future. -/
def lockActiveAt (lockedUntil : Option Nat) (now : Nat) : Bool :=
  match lockedUntil with
  | some t => decide (now < t)
  | none => false

/-- Translation of `AuthService.login`: lookup by email, lock check with the
remaining minutes (`Math.ceil` of the millisecond difference), status check,
password compare (a mismatch persists the incremented attempt counter),
successful-login bookkeeping, then unconditional session creation. The state
changes made before a failure are kept, as in the database. -/
def AuthService.login (ld : LoginData) (authEntity : String)
    (users : List AuthUser) (st : SessionStore) (cfg : AuthConfig)
    (tempId now : Nat) :
    Except LoginError LoginOk × List AuthUser × SessionStore :=
  match AuthRepository.findByEmailWithPassword users ld.email with
  | none => (.error .invalidCredentials, users, st)
  | some user =>
      if lockActiveAt user.lockedUntil now then
        let t := user.lockedUntil.getD 0
        (.error (.accountLocked ((t - now + 59999) / 60000)), users, st)
      else if user.status != UserStatus.ACTIVE then
        (.error .accountNotActive, users, st)
      else if !(comparePassword ld.password user.password) then
        (.error .invalidCredentials,
         AuthRepository.incrementLoginAttempts users user.id cfg now, st)
      else
        let users1 := AuthRepository.updateSuccessfulLogin users user.id
          ld.ipAddress ld.userAgent now
        match SessionService.createSession
          { userId := user.id, userEmail := user.email, authEntity := authEntity,
            ipAddress := ld.ipAddress, userAgent := ld.userAgent,
            deviceName := ld.deviceName, deviceType := ld.deviceType }
          tempId users1 st now with
        | none => (.error .internalError, users1, st)
        | some ((session, tokens), st1) =>
            (.ok { user := user, session := session, tokens := tokens }, users1, st1)

/-- Modelled from the spec: the user entity's `setResetPasswordToken` is not
under src. The spec's identity record carries an optional reset-token plus
expiry, set on request; the generated token value and its expiry instant are
taken as parameters. -/
def AuthUser.setResetPasswordToken (u : AuthUser) (token : String) (expires : Nat) :
    AuthUser :=
  { u with resetPasswordToken := some token, resetPasswordExpires := some expires }

/-- Translation of `AuthService.requestPasswordReset`: an unknown email
silently no-ops and returns `none`; otherwise the fresh reset token is
persisted and returned. -/
def AuthService.requestPasswordReset (email : String) (resetToken : String)
    (expires : Nat) (users : List AuthUser) : Option String × List AuthUser :=
  match AuthRepository.findByEmail users email with
  | none => (none, users)
  | some user =>
      let u1 := user.setResetPasswordToken resetToken expires
      (u1.resetPasswordToken,
       AuthRepository.updateResetToken users user.id resetToken expires)

/-- Translation of `AuthService.resetPassword`: a valid unexpired reset
token rewrites the credential and force-logs-out the identity from all
entities; an invalid token returns `false`. -/
def AuthService.resetPassword (token newPassword : String)
    (users : List AuthUser) (st : SessionStore) (now : Nat) :
    Bool × List AuthUser × SessionStore :=
  match AuthRepository.findByResetToken users token now with
  | none => (false, users, st)
  | some user =>
      let users1 := AuthRepository.updatePassword users user.id (hashPassword newPassword)
      let st1 := (SessionService.logoutUserFromAllEntities user.email st now).2
      (true, users1, st1)

/-- Translation of `AuthService.changePassword`: verify the current
password, rewrite the credential, and force-logout the identity's sessions
in this service's entity. -/
def AuthService.changePassword (email currentPassword newPassword : String)
    (authEntity : String) (users : List AuthUser) (st : SessionStore)
    (now : Nat) : Bool × List AuthUser × SessionStore :=
  match AuthRepository.findByEmailWithPassword users email with
  | none => (false, users, st)
  | some user =>
      if !(comparePassword currentPassword user.password) then (false, users, st)
      else
        let users1 := AuthRepository.updatePassword users user.id (hashPassword newPassword)
        let st1 := (SessionService.logoutUserFromEntity email authEntity st now).2
        (true, users1, st1)

/-! ## Auth controller: forgot-password endpoint
Translation of `AuthController.forgotPassword` (src/unnamed/part_007). -/

/-- Outward HTTP result of the endpoint (`ResponseUtil` call made). -/
inductive ApiResponse where
  | success (key message : String)
  | validationError (key : String)
  | serverError (key : String) (status : Nat)
deriving Repr, DecidableEq

/-- Translation of `AuthController.forgotPassword`: a falsy email is a
validation error; otherwise the reset request runs, its result is discarded,
and the response is always the same success body, by design not revealing
whether the email exists. -/
def AuthController.forgotPassword (email : String) (resetToken : String)
    (expires : Nat) (users : List AuthUser) : ApiResponse × List AuthUser :=
  if email == "" then (.validationError "validation.required", users)
  else
    let r := AuthService.requestPasswordReset email resetToken expires users
    (.success "messages.updated" "If the email exists, a reset link will be sent", r.2)

/-! ## Demonstration fixtures
Concrete rows and stores used by witnesses and counterexamples. -/

/-- A registered identity with a known credential digest. -/
def demoUser : AuthUser :=
  { id := "u1", email := "a@x.com", password := hashPassword "Str0ng!Pass",
    roles := "admin" }

/-- The refresh-token claims stored for the demo session (issued at 1000). -/
def demoRefreshClaims : TokenClaims := generateRefreshToken "u1" 1 "users" 1000

/-- The access-token claims stored for the demo session (issued at 1000). -/
def demoAccessClaims : TokenClaims :=
  generateAccessToken "u1" 1 "a@x.com" "users" none 1000

/-- An active persisted session for `demoUser` in entity `users`. -/
def demoSession : Session :=
  { id := 1
    userId := "u1"
    userEmail := "a@x.com"
    authEntity := "users"
    accessToken := .signed demoAccessClaims
    refreshToken := some (.signed demoRefreshClaims)
    accessTokenExpires := 1000 + 3600000
    refreshTokenExpires := some (1000 + 604800000)
    expiresAt := 1000 + 604800000
    isActive := true
    lastActivity := 1000
    ipAddress := none
    userAgent := none
    deviceName := none
    deviceType := none
    metadata := none }

/-- A store holding exactly the demo session. -/
def demoStore : SessionStore := { sessions := [demoSession], nextId := 2 }

/-- The token pair produced by rotating the demo session at instant 2000. -/
def demoRotatedTokens : SessionTokens :=
  generateSessionTokens "u1" 1 "a@x.com" "users" none 2000

/-- The demo session as left behind by a rotation at instant 2000. -/
def demoRotatedSession : Session :=
  { demoSession with
      accessToken := demoRotatedTokens.accessToken
      refreshToken := some demoRotatedTokens.refreshToken
      accessTokenExpires := 2000 + 3600000
      refreshTokenExpires := some (2000 + 604800000)
      expiresAt := 2000 + 604800000
      lastActivity := 2000 }

/-- The store left behind by rotating the demo session at instant 2000. -/
def demoRotatedStore : SessionStore :=
  { sessions := [demoRotatedSession], nextId := 2 }

/-- The identity one failed attempt away from the default lockout maximum. -/
def demoAttemptUser : AuthUser :=
  { id := "u1", email := "a@x.com", password := hashPassword "Str0ng!Pass",
    roles := "admin", loginAttempts := 4 }

/-- The identity while locked until instant 5000. -/
def demoLockedUser : AuthUser :=
  { id := "u1", email := "a@x.com", password := hashPassword "Str0ng!Pass",
    roles := "admin", loginAttempts := 5, lockedUntil := some 5000 }

/-- The default lockout configuration (5 attempts, 15 minutes). -/
def demoCfg : AuthConfig := {}

/-- A registered identity carrying a live password-reset token. -/
def demoResetUser : AuthUser :=
  { id := "u1", email := "a@x.com", password := hashPassword "Str0ng!Pass",
    roles := "admin", resetPasswordToken := some "tok",
    resetPasswordExpires := some 5000 }

/-- A session-creation request for `demoUser` in entity `users`. -/
def demoCreateData : SessionCreateData :=
  { userId := "u1", userEmail := "a@x.com", authEntity := "users" }

/-! ## General list lemmas for find-first and bulk-update tables -/

/-- Finding in a concatenation skips a left part with no match. -/
theorem find?_append_left_none {α : Type} {l₁ : List α} (l₂ : List α)
    {p : α → Bool} (h : ∀ x ∈ l₁, p x = false) :
    (l₁ ++ l₂).find? p = l₂.find? p := by
  induction l₁ with
  | nil => rfl
  | cons a l ih =>
      have ha := h a (by simp)
      simp only [List.cons_append, List.find?, ha]
      exact ih fun x hx => h x (by simp [hx])

/-- In a table whose keys are pairwise distinct, finding by the key of a
member returns that member. -/
theorem find?_key_of_mem {α κ : Type} [DecidableEq κ] (key : α → κ)
    {l : List α} {a : α} (hm : a ∈ l) (hnd : (l.map key).Nodup) :
    l.find? (fun x => key x == key a) = some a := by
  induction l with
  | nil => cases hm
  | cons b l ih =>
      rw [List.map_cons, List.nodup_cons] at hnd
      rcases List.mem_cons.mp hm with h | h
      · subst h
        simp [List.find?]
      · have hne : key b ≠ key a := by
          intro he
          exact hnd.1 (he ▸ List.mem_map_of_mem key h)
        simp only [List.find?, beq_eq_false_iff_ne.mpr hne]
        exact ih h hnd.2

/-- In a table whose keys are pairwise distinct, two members sharing a key
are the same row. -/
theorem eq_of_key_eq_of_nodup {α κ : Type} [DecidableEq κ] (key : α → κ)
    {l : List α} {a b : α} (ha : a ∈ l) (hb : b ∈ l)
    (hnd : (l.map key).Nodup) (hk : key a = key b) : a = b := by
  have h1 := find?_key_of_mem key ha hnd
  have h2 := find?_key_of_mem key hb hnd
  rw [hk] at h1
  exact Option.some.inj (h1.symm.trans h2)

/-! ## Row-effect lemmas -/

/-- Pair-deactivation never changes a row's id. -/
theorem deactivatePairRow_id (e a : String) (now : Nat) (s : Session) :
    (deactivatePairRow e a now s).id = s.id := by
  unfold deactivatePairRow; split <;> rfl

/-- Email-deactivation never changes a row's id. -/
theorem deactivateEmailRow_id (e : String) (now : Nat) (s : Session) :
    (deactivateEmailRow e now s).id = s.id := by
  unfold deactivateEmailRow; split <;> rfl

/-- Token update never changes a row's id. -/
theorem updateTokensRow_id (sid : Nat) (atk : Token) (rtk : Option Token)
    (ae re : Option Nat) (now : Nat) (s : Session) :
    (updateTokensRow sid atk rtk ae re now s).id = s.id := by
  unfold updateTokensRow
  split
  · cases ae <;> cases rtk <;> cases re <;> rfl
  · rfl

/-- Token update leaves rows with a different id untouched. -/
theorem updateTokensRow_of_id_ne (sid : Nat) (atk : Token) (rtk : Option Token)
    (ae re : Option Nat) (now : Nat) (s : Session) (h : s.id ≠ sid) :
    updateTokensRow sid atk rtk ae re now s = s := by
  unfold updateTokensRow
  rw [if_neg (by simpa using h)]

/-- Token update on the addressed row, with every optional column supplied. -/
theorem updateTokensRow_of_id_eq (sid : Nat) (atk : Token) (rt : Token)
    (ae re : Nat) (now : Nat) (s : Session) (h : s.id = sid) :
    updateTokensRow sid atk (some rt) (some ae) (some re) now s =
      { s with accessToken := atk, refreshToken := some rt,
               accessTokenExpires := ae, refreshTokenExpires := some re,
               expiresAt := re, lastActivity := now } := by
  unfold updateTokensRow
  rw [if_pos (by simpa using h)]

/-- Counter increment never changes a row's id. -/
theorem incrementAttemptsRow_id (uid : String) (n : Nat) (cfg : AuthConfig)
    (now : Nat) (v : AuthUser) : (incrementAttemptsRow uid n cfg now v).id = v.id := by
  unfold incrementAttemptsRow
  split
  · split <;> rfl
  · rfl

/-- Successful-login bookkeeping never changes a row's id. -/
theorem successfulLoginRow_id (uid : String) (ip ua : Option String) (now : Nat)
    (v : AuthUser) : (successfulLoginRow uid ip ua now v).id = v.id := by
  unfold successfulLoginRow
  split
  · by_cases h1 : strTruthy ip = true <;> by_cases h2 : strTruthy ua = true <;>
      simp [h1, h2]
  · rfl

/-- Successful-login bookkeeping on the addressed row zeroes the attempt
counter and clears the lock. -/
theorem successfulLoginRow_of_id_eq (uid : String) (ip ua : Option String)
    (now : Nat) (v : AuthUser) (h : (v.id == uid) = true) :
    (successfulLoginRow uid ip ua now v).loginAttempts = 0 ∧
    (successfulLoginRow uid ip ua now v).lockedUntil = none := by
  unfold successfulLoginRow
  rw [if_pos h]
  by_cases h1 : strTruthy ip = true <;> by_cases h2 : strTruthy ua = true <;>
    simp [h1, h2]

/-- Refetching an identity by id after the successful-login bookkeeping on a
duplicate-free identity table returns the member's updated row. -/
theorem findUserById_map_successfulLogin (users : List AuthUser) (user : AuthUser)
    (hm : user ∈ users) (hnd : (users.map AuthUser.id).Nodup)
    (ip ua : Option String) (now : Nat) :
    UserRepository.findById (AuthRepository.updateSuccessfulLogin users user.id ip ua now)
      user.id = some (successfulLoginRow user.id ip ua now user) := by
  have hcomp : (AuthUser.id ∘ successfulLoginRow user.id ip ua now) = AuthUser.id := by
    funext x
    exact successfulLoginRow_id _ _ _ _ _
  have hnd' : ((users.map (successfulLoginRow user.id ip ua now)).map AuthUser.id).Nodup := by
    rw [List.map_map, hcomp]
    exact hnd
  have hmem : successfulLoginRow user.id ip ua now user ∈
      users.map (successfulLoginRow user.id ip ua now) :=
    List.mem_map_of_mem _ hm
  have h := find?_key_of_mem AuthUser.id hmem hnd'
  simp only [successfulLoginRow_id] at h
  exact h

/-- Computation of `SessionService.createSession` on a well-formed store
when the identity is present: the pair's prior sessions are deactivated, the
new row is appended under the fresh id with the final tokens written over
the provisional ones, and exactly that row plus the final pair are
returned. -/
theorem SessionService.createSession_eq (d : SessionCreateData) (tempId : Nat)
    (users : List AuthUser) (st : SessionStore) (now : Nat) (u : AuthUser)
    (hwf : st.wf) (hu : UserRepository.findById users d.userId = some u) :
    SessionService.createSession d tempId users st now =
      some ((SessionService.createdSession d u st.nextId now,
             generateSessionTokens d.userId st.nextId d.userEmail d.authEntity
               (some u.roles) now),
            { sessions :=
                st.sessions.map (deactivatePairRow d.userEmail d.authEntity now)
                ++ [SessionService.createdSession d u st.nextId now]
              nextId := st.nextId + 1 }) := by
  obtain ⟨hbound, hnodup⟩ := hwf
  unfold SessionService.createSession
  simp only [SessionRepository.createSession, SessionRepository.deactivateUserSessionsInEntity,
    SessionRepository.updateSessionTokens, SessionRepository.findById, hu]
  rw [List.map_append]
  set toks := generateSessionTokens d.userId st.nextId d.userEmail d.authEntity
    (some u.roles) now with htoks
  set U := updateTokensRow st.nextId toks.accessToken (some toks.refreshToken)
    (some toks.accessTokenExpires) (some toks.refreshTokenExpires) now with hU
  set D := deactivatePairRow d.userEmail d.authEntity now with hD
  have hpre : ∀ x ∈ (st.sessions.map D).map U, (x.id == st.nextId) = false := by
    intro x hx
    simp only [List.mem_map] at hx
    obtain ⟨s0, hs0, rfl⟩ := hx
    obtain ⟨s1, hs1, rfl⟩ := hs0
    rw [hU, updateTokensRow_id, hD, deactivatePairRow_id]
    exact beq_eq_false_iff_ne.mpr (Nat.ne_of_lt (hbound s1 hs1).2)
  have hmapid : (st.sessions.map D).map U = st.sessions.map D := by
    refine (List.map_congr_left ?_).trans (List.map_id _)
    intro x hx
    simp only [List.mem_map] at hx
    obtain ⟨s1, hs1, rfl⟩ := hx
    rw [hU]
    refine updateTokensRow_of_id_ne _ _ _ _ _ _ _ ?_
    rw [hD, deactivatePairRow_id]
    exact Nat.ne_of_lt (hbound s1 hs1).2
  rw [find?_append_left_none _ hpre]
  rw [hmapid]
  simp [hU, updateTokensRow, SessionService.createdSession, htoks,
    generateSessionTokens, Option.getD]

/-- After a global (all-entities) deactivation for an email, no session of
that email is active. -/
theorem deactivateAllUserSessions_inactive (st : SessionStore) (email : String)
    (now : Nat) :
    ∀ s ∈ (SessionRepository.deactivateAllUserSessions st email now).sessions,
      s.userEmail = email → s.isActive = false := by
  intro s hs he
  simp only [SessionRepository.deactivateAllUserSessions, List.mem_map] at hs
  obtain ⟨s0, hs0, rfl⟩ := hs
  unfold deactivateEmailRow at he ⊢
  by_cases hc : (s0.userEmail == email && s0.isActive) = true
  · rw [if_pos hc]
  · rw [if_neg hc] at he ⊢
    simp only [Bool.and_eq_true, beq_iff_eq] at hc
    cases hact : s0.isActive with
    | false => rfl
    | true => exact absurd ⟨he, hact⟩ hc

/-- After an in-entity deactivation for a pair, no session of that pair is
active. -/
theorem deactivateUserSessionsInEntity_inactive (st : SessionStore)
    (email authEntity : String) (now : Nat) :
    ∀ s ∈ (SessionRepository.deactivateUserSessionsInEntity st email authEntity now).sessions,
      s.userEmail = email → s.authEntity = authEntity → s.isActive = false := by
  intro s hs he ha
  simp only [SessionRepository.deactivateUserSessionsInEntity, List.mem_map] at hs
  obtain ⟨s0, hs0, rfl⟩ := hs
  unfold deactivatePairRow at he ha ⊢
  by_cases hc : (s0.userEmail == email && s0.authEntity == authEntity && s0.isActive) = true
  · rw [if_pos hc]
  · rw [if_neg hc] at he ha ⊢
    simp only [Bool.and_eq_true, beq_iff_eq] at hc
    cases hact : s0.isActive with
    | false => rfl
    | true => exact absurd ⟨⟨he, ha⟩, hact⟩ hc

/-! ## Claim theorems -/

/-- C4: `validatePasswordStrength` implements exactly the reference
definition — the score is the clamp to `[0, 5]` of one point per satisfied
positive criterion minus one for whitespace, validity holds exactly when all
five positive criteria are met and there is no whitespace; `P@ssw0rd1`
scores 5 and is valid, `password` scores at most 2 and is invalid, and any
password containing whitespace is invalid regardless of other criteria. -/
theorem validatePasswordStrength_matches_reference :
    (∀ p : String,
      (validatePasswordStrength p).score = max 0 (min 5 (specPasswordScore p)) ∧
      ((validatePasswordStrength p).isValid = true ↔
        (8 ≤ p.length ∧ hasUppercaseChar p = true ∧ hasLowercaseChar p = true ∧
         hasDigitChar p = true ∧ hasSpecialChar p = true ∧
         containsJsWhitespace p = false))) ∧
    (validatePasswordStrength "P@ssw0rd1").score = 5 ∧
    (validatePasswordStrength "P@ssw0rd1").isValid = true ∧
    (validatePasswordStrength "password").score ≤ 2 ∧
    (validatePasswordStrength "password").isValid = false ∧
    (∀ p : String, containsJsWhitespace p = true →
      (validatePasswordStrength p).isValid = false) := by
  have hmain : ∀ p : String,
      (validatePasswordStrength p).score = max 0 (min 5 (specPasswordScore p)) ∧
      ((validatePasswordStrength p).isValid = true ↔
        (8 ≤ p.length ∧ hasUppercaseChar p = true ∧ hasLowercaseChar p = true ∧
         hasDigitChar p = true ∧ hasSpecialChar p = true ∧
         containsJsWhitespace p = false)) := by
    intro p
    unfold validatePasswordStrength specPasswordScore
    by_cases h1 : 8 ≤ p.length <;>
    cases h2 : hasUppercaseChar p <;>
    cases h3 : hasLowercaseChar p <;>
    cases h4 : hasDigitChar p <;>
    cases h5 : hasSpecialChar p <;>
    cases h6 : containsJsWhitespace p <;>
    simp [h1, h2, h3, h4, h5, h6]
  refine ⟨hmain, by decide, by decide, by decide, by decide, ?_⟩
  intro p hw
  cases hv : (validatePasswordStrength p).isValid with
  | false => rfl
  | true => exact absurd ((hmain p).2.mp hv).2.2.2.2.2 (by simp [hw])

/-- C4 witness: the universally quantified parts applied at concrete
passwords. -/
theorem validatePasswordStrength_matches_reference_witness :
    ((validatePasswordStrength "P@ssw0rd1").score =
       max 0 (min 5 (specPasswordScore "P@ssw0rd1"))) ∧
    containsJsWhitespace "P@ss w0rd1" = true ∧
    (validatePasswordStrength "P@ss w0rd1").isValid = false :=
  ⟨(validatePasswordStrength_matches_reference.1 "P@ssw0rd1").1,
   by decide,
   validatePasswordStrength_matches_reference.2.2.2.2.2 "P@ss w0rd1" (by decide)⟩

/-- C1: after `SessionService.createSession` completes, at most one session
row is active for the (userEmail, authEntity) pair and it is the newly
created one — every other row of the pair was deactivated before the insert,
so a second `createSession` for the same pair deactivates the first. -/
theorem createSession_single_active_session (d : SessionCreateData)
    (tempId : Nat) (users : List AuthUser) (st : SessionStore) (now : Nat)
    (u : AuthUser) (hwf : st.wf)
    (hu : UserRepository.findById users d.userId = some u) :
    ∃ sess tokens st',
      SessionService.createSession d tempId users st now = some ((sess, tokens), st') ∧
      sess.isActive = true ∧ sess.userEmail = d.userEmail ∧
      sess.authEntity = d.authEntity ∧ sess ∈ st'.sessions ∧
      ∀ s ∈ st'.sessions, s.userEmail = d.userEmail → s.authEntity = d.authEntity →
        s.isActive = true → s = sess := by
  refine ⟨_, _, _, SessionService.createSession_eq d tempId users st now u hwf hu,
    rfl, rfl, rfl, by simp, ?_⟩
  intro s hs he ha hact
  rcases List.mem_append.mp hs with h | h
  · simp only [List.mem_map] at h
    obtain ⟨s0, hs0, rfl⟩ := h
    unfold deactivatePairRow at he ha hact
    by_cases hc : (s0.userEmail == d.userEmail && s0.authEntity == d.authEntity
        && s0.isActive) = true
    · rw [if_pos hc] at hact
      simp at hact
    · rw [if_neg hc] at he ha hact
      exact absurd (by simp [he, ha, hact]) hc
  · simpa using h

/-- C8: the observable contract of two-phase token issuance — the session
returned by `createSession` has the id embedded in both returned tokens,
and its stored token columns equal the returned final tokens (the
provisional tokens are fully overwritten before return). -/
theorem createSession_two_phase_contract (d : SessionCreateData)
    (tempId : Nat) (users : List AuthUser) (st : SessionStore) (now : Nat)
    (u : AuthUser) (hwf : st.wf)
    (hu : UserRepository.findById users d.userId = some u) :
    ∃ sess tokens st',
      SessionService.createSession d tempId users st now = some ((sess, tokens), st') ∧
      (∃ ac, tokens.accessToken = .signed ac ∧ ac.sessionId = sess.id) ∧
      (∃ rc, tokens.refreshToken = .signed rc ∧ rc.sessionId = sess.id) ∧
      sess.accessToken = tokens.accessToken ∧
      sess.refreshToken = some tokens.refreshToken ∧
      sess.accessTokenExpires = tokens.accessTokenExpires ∧
      sess.refreshTokenExpires = some tokens.refreshTokenExpires :=
  ⟨_, _, _, SessionService.createSession_eq d tempId users st now u hwf hu,
    ⟨_, rfl, rfl⟩, ⟨_, rfl, rfl⟩, rfl, rfl, rfl, rfl⟩

/-- C1 witness: the single-active-session conclusion at a concrete store
already holding an active session for the same pair. -/
theorem createSession_single_active_session_witness :
    ∃ sess tokens st',
      SessionService.createSession demoCreateData 99 [demoUser] demoStore 2000 =
        some ((sess, tokens), st') ∧
      sess.isActive = true ∧ sess.userEmail = demoCreateData.userEmail ∧
      sess.authEntity = demoCreateData.authEntity ∧ sess ∈ st'.sessions ∧
      ∀ s ∈ st'.sessions, s.userEmail = demoCreateData.userEmail →
        s.authEntity = demoCreateData.authEntity → s.isActive = true → s = sess :=
  createSession_single_active_session demoCreateData 99 [demoUser] demoStore
    2000 demoUser (by decide) (by decide)

/-- C8 witness: the token/session agreement conclusion at the same concrete
store. -/
theorem createSession_two_phase_contract_witness :
    ∃ sess tokens st',
      SessionService.createSession demoCreateData 99 [demoUser] demoStore 2000 =
        some ((sess, tokens), st') ∧
      (∃ ac, tokens.accessToken = .signed ac ∧ ac.sessionId = sess.id) ∧
      (∃ rc, tokens.refreshToken = .signed rc ∧ rc.sessionId = sess.id) ∧
      sess.accessToken = tokens.accessToken ∧
      sess.refreshToken = some tokens.refreshToken ∧
      sess.accessTokenExpires = tokens.accessTokenExpires ∧
      sess.refreshTokenExpires = some tokens.refreshTokenExpires :=
  createSession_two_phase_contract demoCreateData 99 [demoUser] demoStore
    2000 demoUser (by decide) (by decide)

/-- Inversion of a successful `validateTokenAndSession`: a non-null result
can only arise from a signed unexpired token with a non-falsy session id
whose session is found active, entity-matching, live, and whose stored
email and user id equal the claims. -/
theorem validateTokenAndSession_some_inv (t : Token) (st : SessionStore) (now : Nat)
    (sess : Session) (td : TokenData)
    (h : (SessionService.validateTokenAndSession t st now).1 = some (sess, td)) :
    ∃ c, t = .signed c ∧ now < c.exp ∧ c.sessionId ≠ 0 ∧
      SessionRepository.findActiveSessionById st c.sessionId = some sess ∧
      sess.authEntity = c.authEntity ∧ sess.isValidSession now = true ∧
      c.email = some sess.userEmail ∧ sess.userId = c.sub ∧
      td = { userId := c.sub, sessionId := c.sessionId, email := c.email,
             authEntity := c.authEntity, role := c.role, tokenType := c.tokenType } := by
  unfold SessionService.validateTokenAndSession getUserFromToken verifyToken
    SessionService.validateSession at h
  cases t with
  | malformed raw => simp at h
  | signed c =>
      by_cases hexp : now < c.exp
      case neg => simp [hexp] at h
      simp only [hexp, if_true] at h
      by_cases hz : c.sessionId == 0
      case pos => simp [hz] at h
      simp only [hz] at h
      rw [if_neg (by simp)] at h
      cases hfind : SessionRepository.findActiveSessionById st c.sessionId with
      | none => rw [hfind] at h; simp at h
      | some session =>
          rw [hfind] at h
          simp only [] at h
          by_cases hent : (session.authEntity != c.authEntity) = true
          · rw [if_pos hent] at h; simp at h
          · rw [if_neg hent] at h
            by_cases hval : (!session.isValidSession now) = true
            · rw [if_pos hval] at h; simp at h
            · rw [if_neg hval] at h
              simp only [] at h
              by_cases hmail : (some session.userEmail != c.email || session.userId != c.sub) = true
              · rw [if_pos hmail] at h; simp at h
              · rw [if_neg hmail] at h
                simp only [Option.some.injEq, Prod.mk.injEq] at h
                obtain ⟨rfl, rfl⟩ := h
                simp only [bne_iff_ne, ne_eq, not_not] at hent
                simp only [Bool.not_eq_true', Bool.not_eq_false] at hval
                simp only [Bool.or_eq_true, bne_iff_ne, ne_eq, not_or, not_not] at hmail
                exact ⟨c, rfl, hexp, by simpa using hz, hfind, hent, hval,
                  hmail.1.symm, hmail.2, rfl⟩

/-- C2: `validateTokenAndSession` returns null — and never throws — on a
malformed token, on an expired token, when no active session carries the
token's `sessionId` claim, and when the claims email differs from the
session's stored email; on success it returns the session together with the
decoded claims. -/
theorem validateTokenAndSession_contract :
    (∀ (raw : String) (st : SessionStore) (now : Nat),
      (SessionService.validateTokenAndSession (.malformed raw) st now).1 = none) ∧
    (∀ (c : TokenClaims) (st : SessionStore) (now : Nat), c.exp ≤ now →
      (SessionService.validateTokenAndSession (.signed c) st now).1 = none) ∧
    (∀ (c : TokenClaims) (st : SessionStore) (now : Nat),
      (∀ s ∈ st.sessions, s.id = c.sessionId → s.isActive = false) →
      (SessionService.validateTokenAndSession (.signed c) st now).1 = none) ∧
    (∀ (c : TokenClaims) (st : SessionStore) (now : Nat) (s : Session),
      SessionRepository.findActiveSessionById st c.sessionId = some s →
      c.email ≠ some s.userEmail →
      (SessionService.validateTokenAndSession (.signed c) st now).1 = none) ∧
    (∀ (c : TokenClaims) (st : SessionStore) (now : Nat) (s : Session),
      now < c.exp → c.sessionId ≠ 0 →
      SessionRepository.findActiveSessionById st c.sessionId = some s →
      s.authEntity = c.authEntity → s.isValidSession now = true →
      c.email = some s.userEmail → s.userId = c.sub →
      (SessionService.validateTokenAndSession (.signed c) st now).1 =
        some (s, { userId := c.sub, sessionId := c.sessionId, email := c.email,
                   authEntity := c.authEntity, role := c.role,
                   tokenType := c.tokenType })) := by
  refine ⟨fun raw st now => rfl, ?_, ?_, ?_, ?_⟩
  · intro c st now hexp
    cases hres : (SessionService.validateTokenAndSession (.signed c) st now).1 with
    | none => rfl
    | some x =>
        obtain ⟨sess, td⟩ := x
        obtain ⟨c', hc', hexp', _⟩ := validateTokenAndSession_some_inv _ _ _ _ _ hres
        injection hc' with hcc
        subst hcc
        exact absurd hexp' (Nat.not_lt.mpr hexp)
  · intro c st now h
    cases hres : (SessionService.validateTokenAndSession (.signed c) st now).1 with
    | none => rfl
    | some x =>
        obtain ⟨sess, td⟩ := x
        obtain ⟨c', hc', -, -, hfind, -⟩ := validateTokenAndSession_some_inv _ _ _ _ _ hres
        injection hc' with hcc
        subst hcc
        unfold SessionRepository.findActiveSessionById at hfind
        have hp := List.find?_some hfind
        have hmem := List.mem_of_find?_eq_some hfind
        simp only [Bool.and_eq_true, beq_iff_eq] at hp
        exact absurd (h sess hmem hp.1) (by simp [hp.2])
  · intro c st now s hfind hmail
    cases hres : (SessionService.validateTokenAndSession (.signed c) st now).1 with
    | none => rfl
    | some x =>
        obtain ⟨sess, td⟩ := x
        obtain ⟨c', hc', -, -, hfind', -, -, hmail', -⟩ :=
          validateTokenAndSession_some_inv _ _ _ _ _ hres
        injection hc' with hcc
        subst hcc
        have hss : s = sess := Option.some.inj (hfind.symm.trans hfind')
        subst hss
        exact absurd hmail' hmail
  · intro c st now s hexp hz hfind hent hval hmail huid
    simp [SessionService.validateTokenAndSession, getUserFromToken, verifyToken,
      SessionService.validateSession, hexp, hz, hfind, hent, hval, hmail, huid]

/-- C2 witness: the malformed, expired and successful cases at the demo
store. -/
theorem validateTokenAndSession_contract_witness :
    (SessionService.validateTokenAndSession (.malformed "not-a-jwt") demoStore 2000).1 = none ∧
    (SessionService.validateTokenAndSession (.signed demoAccessClaims) demoStore 99999999999).1 = none ∧
    (SessionService.validateTokenAndSession (.signed demoAccessClaims) demoStore 2000).1 =
      some (demoSession,
        { userId := "u1", sessionId := 1, email := some "a@x.com",
          authEntity := "users", role := none, tokenType := "access" }) :=
  ⟨validateTokenAndSession_contract.1 "not-a-jwt" demoStore 2000,
   validateTokenAndSession_contract.2.1 demoAccessClaims demoStore 99999999999 (by decide),
   validateTokenAndSession_contract.2.2.2.2 demoAccessClaims demoStore 2000 demoSession
     (by decide) (by decide) (by decide) (by decide) (by decide) (by decide) (by decide)⟩

/-- Refetching by id after a token update on a duplicate-free table returns
exactly the updated row. -/
theorem findById_map_updateTokens (st : SessionStore) (s : Session)
    (hm : s ∈ st.sessions) (hnd : (st.sessions.map Session.id).Nodup)
    (atk rt : Token) (ae re : Nat) (now : Nat) :
    (SessionRepository.updateSessionTokens st s.id atk (some rt) (some ae)
      (some re) now).sessions.find? (fun x => x.id == s.id) =
      some (updateTokensRow s.id atk (some rt) (some ae) (some re) now s) := by
  have hcomp : (Session.id ∘ updateTokensRow s.id atk (some rt) (some ae) (some re) now)
      = Session.id := by
    funext x
    exact updateTokensRow_id _ _ _ _ _ _ _
  have hnd' : ((st.sessions.map
      (updateTokensRow s.id atk (some rt) (some ae) (some re) now)).map Session.id).Nodup := by
    rw [List.map_map, hcomp]
    exact hnd
  have hmem : updateTokensRow s.id atk (some rt) (some ae) (some re) now s ∈
      st.sessions.map (updateTokensRow s.id atk (some rt) (some ae) (some re) now) :=
    List.mem_map_of_mem _ hm
  have h := find?_key_of_mem Session.id hmem hnd'
  simp only [updateTokensRow_id] at h
  exact h

/-- C3 counterexample: rotation at the very instant the stored refresh token
was issued re-signs an identical claims payload, so the "new" refresh token
equals the old one — `refreshTokens` succeeds, yet the stored value still
matches the old token and a second `refreshTokens` with the same token
succeeds again, refuting the claim as stated. -/
theorem refreshTokens_not_single_use_at_same_instant :
    (SessionService.refreshTokens (.signed demoRefreshClaims) demoStore 1000).1.map
        (fun r => r.1.refreshToken) = some (.signed demoRefreshClaims) ∧
    ((SessionService.refreshTokens (.signed demoRefreshClaims)
        (SessionService.refreshTokens (.signed demoRefreshClaims) demoStore 1000).2
        1000).1).isSome = true := by
  constructor
  · rfl
  · rfl

/-- C3 (amended): refresh-token rotation is single-use provided the rotation
happens at an instant other than the old token's issuance instant (`iat`) —
otherwise the deterministic signer re-issues the identical token. Under that
proviso, a successful `refreshTokens t` stores a fresh token different from
`t`, after which `findSessionByRefreshToken t` no longer returns the session
and a second `refreshTokens t` returns null (assuming no other session
stores `t`). -/
theorem refreshTokens_single_use (t : Token) (st : SessionStore) (now : Nat)
    (toks : SessionTokens) (sess : Session) (st' : SessionStore)
    (hwf : st.wf)
    (hrun : SessionService.refreshTokens t st now = (some (toks, sess), st'))
    (hiat : ∀ c, t = .signed c → c.iat ≠ now)
    (honly : ∀ s ∈ st.sessions, s.refreshToken = some t → s.id = sess.id) :
    sess.refreshToken = some toks.refreshToken ∧
    toks.refreshToken ≠ t ∧
    SessionRepository.findSessionByRefreshToken st' t = none ∧
    (∀ now2, (SessionService.refreshTokens t st' now2).1 = none) := by
  obtain ⟨hbound, hnodup⟩ := hwf
  unfold SessionService.refreshTokens at hrun
  cases hfind : SessionRepository.findSessionByRefreshToken st t with
  | none => rw [hfind] at hrun; simp at hrun
  | some s =>
      rw [hfind] at hrun
      simp only [] at hrun
      by_cases hcond : (!(s.isRefreshTokenValid now) || !s.isActive) = true
      · rw [if_pos hcond] at hrun; simp at hrun
      · rw [if_neg hcond] at hrun
        have hmem : s ∈ st.sessions := by
          unfold SessionRepository.findSessionByRefreshToken at hfind
          exact List.mem_of_find?_eq_some hfind
        have hstored : s.refreshToken = some t := by
          unfold SessionRepository.findSessionByRefreshToken at hfind
          have := List.find?_some hfind
          simpa using this
        rw [show SessionRepository.findById
              (SessionRepository.updateSessionTokens st s.id
                (generateSessionTokens s.userId s.id s.userEmail s.authEntity none now).accessToken
                (some (generateSessionTokens s.userId s.id s.userEmail s.authEntity none now).refreshToken)
                (some (generateSessionTokens s.userId s.id s.userEmail s.authEntity none now).accessTokenExpires)
                (some (generateSessionTokens s.userId s.id s.userEmail s.authEntity none now).refreshTokenExpires)
                now) s.id =
            some (updateTokensRow s.id
              (generateSessionTokens s.userId s.id s.userEmail s.authEntity none now).accessToken
              (some (generateSessionTokens s.userId s.id s.userEmail s.authEntity none now).refreshToken)
              (some (generateSessionTokens s.userId s.id s.userEmail s.authEntity none now).accessTokenExpires)
              (some (generateSessionTokens s.userId s.id s.userEmail s.authEntity none now).refreshTokenExpires)
              now s)
          from findById_map_updateTokens st s hmem hnodup _ _ _ _ _] at hrun
        simp only [Option.some.injEq, Prod.mk.injEq] at hrun
        obtain ⟨⟨htoks, hsess⟩, hst⟩ := hrun
        subst htoks
        subst hsess
        subst hst
        have hne : (generateSessionTokens s.userId s.id s.userEmail s.authEntity none now).refreshToken ≠ t := by
          intro heq
          cases t with
          | malformed raw => exact Token.noConfusion heq
          | signed c =>
              injection heq with hcc
              exact hiat c rfl (hcc ▸ rfl)
        have hnone : SessionRepository.findSessionByRefreshToken
            (SessionRepository.updateSessionTokens st s.id
              (generateSessionTokens s.userId s.id s.userEmail s.authEntity none now).accessToken
              (some (generateSessionTokens s.userId s.id s.userEmail s.authEntity none now).refreshToken)
              (some (generateSessionTokens s.userId s.id s.userEmail s.authEntity none now).accessTokenExpires)
              (some (generateSessionTokens s.userId s.id s.userEmail s.authEntity none now).refreshTokenExpires)
              now) t = none := by
          unfold SessionRepository.findSessionByRefreshToken
          rw [List.find?_eq_none]
          intro x hx hp
          simp only [SessionRepository.updateSessionTokens, List.mem_map] at hx
          obtain ⟨s0, hs0, rfl⟩ := hx
          by_cases hid : s0.id = s.id
          · have hs0s : s0 = s := eq_of_key_eq_of_nodup Session.id hs0 hmem hnodup hid
            subst hs0s
            rw [updateTokensRow_of_id_eq _ _ _ _ _ _ _ hid] at hp
            simp only [beq_iff_eq] at hp
            exact hne (Option.some.inj hp)
          · rw [updateTokensRow_of_id_ne _ _ _ _ _ _ _ hid] at hp
            simp only [beq_iff_eq] at hp
            have h1 := honly s0 hs0 hp
            rw [updateTokensRow_id] at h1
            exact hid h1
        refine ⟨?_, hne, hnone, ?_⟩
        · rw [updateTokensRow_of_id_eq _ _ _ _ _ _ _ rfl]
        · intro now2
          unfold SessionService.refreshTokens
          rw [hnone]

/-- C3 witness: the amended rotation property at the demo store, rotating at
instant 2000 a refresh token issued at instant 1000. -/
theorem refreshTokens_single_use_witness :
    demoRotatedSession.refreshToken = some demoRotatedTokens.refreshToken ∧
    demoRotatedTokens.refreshToken ≠ .signed demoRefreshClaims ∧
    SessionRepository.findSessionByRefreshToken demoRotatedStore
      (.signed demoRefreshClaims) = none ∧
    (∀ now2, (SessionService.refreshTokens (.signed demoRefreshClaims)
      demoRotatedStore now2).1 = none) :=
  refreshTokens_single_use (.signed demoRefreshClaims) demoStore 2000
    demoRotatedTokens demoRotatedSession demoRotatedStore
    (by decide)
    (by decide)
    (by intro c hc; injection hc with h; subst h; decide)
    (by decide)

/-- C7: a token issued by `generateRefreshToken` never authenticates at the
Session Service boundary — `validateTokenAndSession` on it returns null for
every store and every instant (refresh tokens carry no email claim, so the
claims-versus-session email cross-check can never pass, whatever the
session state). -/
theorem refresh_token_never_validates (userId : String) (sessionId : Nat)
    (authEntity : String) (issuedAt : Nat) (st : SessionStore) (now : Nat) :
    (SessionService.validateTokenAndSession
      (.signed (generateRefreshToken userId sessionId authEntity issuedAt))
      st now).1 = none := by
  unfold SessionService.validateTokenAndSession getUserFromToken verifyToken
    generateRefreshToken
  by_cases hexp : now < issuedAt + 604800000
  · simp only [hexp, if_true]
    by_cases hz : sessionId == 0
    · simp [hz]
    · simp only [hz, Bool.false_eq_true, if_false]
      rcases hval : SessionService.validateSession sessionId authEntity st now with ⟨os, st1⟩
      cases os with
      | none => simp [hval]
      | some session => simp [hval]
  · simp [hexp]

/-- C5: the lockout protocol of `AuthService.login` — (a) the failed attempt
that brings the counter to the configured maximum sets the lock-until
instant; (b) while the lock-until instant lies in the future every login
attempt fails with the account-locked error, whatever password is supplied
(in particular the correct one); (c) once the lock no longer holds, a
login with the correct password succeeds and resets the counter to zero and
clears the lock. -/
theorem login_lockout_contract :
    (∀ (ld : LoginData) (authEntity : String) (users : List AuthUser)
       (st : SessionStore) (cfg : AuthConfig) (tempId now : Nat) (user : AuthUser),
      AuthRepository.findByEmailWithPassword users ld.email = some user →
      (users.map AuthUser.id).Nodup →
      lockActiveAt user.lockedUntil now = false →
      user.status = UserStatus.ACTIVE →
      comparePassword ld.password user.password = false →
      cfg.maxLoginAttempts ≤ user.loginAttempts + 1 →
      (AuthService.login ld authEntity users st cfg tempId now).1 =
        .error .invalidCredentials ∧
      ∀ v ∈ (AuthService.login ld authEntity users st cfg tempId now).2.1,
        v.id = user.id →
          v.loginAttempts = user.loginAttempts + 1 ∧
          v.lockedUntil = some (now + cfg.lockDurationMinutes * 60000)) ∧
    (∀ (ld : LoginData) (authEntity : String) (users : List AuthUser)
       (st : SessionStore) (cfg : AuthConfig) (tempId now : Nat)
       (user : AuthUser) (t : Nat),
      AuthRepository.findByEmailWithPassword users ld.email = some user →
      user.lockedUntil = some t → now < t →
      AuthService.login ld authEntity users st cfg tempId now =
        (.error (.accountLocked ((t - now + 59999) / 60000)), users, st)) ∧
    (∀ (ld : LoginData) (authEntity : String) (users : List AuthUser)
       (st : SessionStore) (cfg : AuthConfig) (tempId now : Nat) (user : AuthUser),
      AuthRepository.findByEmailWithPassword users ld.email = some user →
      (users.map AuthUser.id).Nodup →
      st.wf →
      lockActiveAt user.lockedUntil now = false →
      user.status = UserStatus.ACTIVE →
      comparePassword ld.password user.password = true →
      (∃ ok, (AuthService.login ld authEntity users st cfg tempId now).1 = .ok ok) ∧
      ∀ v ∈ (AuthService.login ld authEntity users st cfg tempId now).2.1,
        v.id = user.id → v.loginAttempts = 0 ∧ v.lockedUntil = none) := by
  refine ⟨?_, ?_, ?_⟩
  · intro ld authEntity users st cfg tempId now user hfind hnd hlock hstatus hcmp hmax
    have hmem : user ∈ users := by
      unfold AuthRepository.findByEmailWithPassword at hfind
      exact List.mem_of_find?_eq_some hfind
    have hfind2 : users.find? (fun v => v.id == user.id) = some user :=
      find?_key_of_mem AuthUser.id hmem hnd
    unfold AuthService.login
    rw [hfind]
    simp only []
    rw [hlock]
    rw [if_neg (by simp)]
    rw [if_neg (by simp [hstatus])]
    rw [if_pos (by simp [hcmp])]
    refine ⟨rfl, ?_⟩
    intro v hv hvid
    unfold AuthRepository.incrementLoginAttempts at hv
    rw [hfind2] at hv
    simp only [List.mem_map] at hv
    obtain ⟨v0, hv0, rfl⟩ := hv
    rw [incrementAttemptsRow_id] at hvid
    unfold incrementAttemptsRow
    rw [if_pos (by simp [hvid]), if_pos hmax]
    exact ⟨rfl, rfl⟩
  · intro ld authEntity users st cfg tempId now user t hfind hlockt hnow
    unfold AuthService.login
    rw [hfind]
    simp only []
    rw [show lockActiveAt user.lockedUntil now = true by
      simp [lockActiveAt, hlockt, hnow]]
    rw [if_pos rfl]
    simp [hlockt]
  · intro ld authEntity users st cfg tempId now user hfind hnd hwf hlock hstatus hcmp
    have hmem : user ∈ users := by
      unfold AuthRepository.findByEmailWithPassword at hfind
      exact List.mem_of_find?_eq_some hfind
    have hfindupd := findUserById_map_successfulLogin users user hmem hnd
      ld.ipAddress ld.userAgent now
    unfold AuthService.login
    rw [hfind]
    simp only []
    rw [hlock]
    rw [if_neg (by simp)]
    rw [if_neg (by simp [hstatus])]
    rw [if_neg (by simp [hcmp])]
    rw [SessionService.createSession_eq _ tempId _ st now
      (successfulLoginRow user.id ld.ipAddress ld.userAgent now user) hwf hfindupd]
    refine ⟨⟨_, rfl⟩, ?_⟩
    intro v hv hvid
    unfold AuthRepository.updateSuccessfulLogin at hv
    simp only [List.mem_map] at hv
    obtain ⟨v0, hv0, rfl⟩ := hv
    rw [successfulLoginRow_id] at hvid
    exact successfulLoginRow_of_id_eq _ _ _ _ _ (by simp [hvid])

/-- C5 witness: the three lockout conclusions at concrete identities — the
fifth failure locks, a locked identity rejects even the correct password
with the remaining minutes, and a successful login resets the counter. -/
theorem login_lockout_contract_witness :
    ((AuthService.login { email := "a@x.com", password := "wrong" } "users"
        [demoAttemptUser] demoStore demoCfg 99 1000).1 = .error .invalidCredentials ∧
      ∀ v ∈ (AuthService.login { email := "a@x.com", password := "wrong" } "users"
        [demoAttemptUser] demoStore demoCfg 99 1000).2.1,
        v.id = demoAttemptUser.id →
          v.loginAttempts = demoAttemptUser.loginAttempts + 1 ∧
          v.lockedUntil = some (1000 + demoCfg.lockDurationMinutes * 60000)) ∧
    (AuthService.login { email := "a@x.com", password := "Str0ng!Pass" } "users"
        [demoLockedUser] demoStore demoCfg 99 1000 =
      (.error (.accountLocked ((5000 - 1000 + 59999) / 60000)),
       [demoLockedUser], demoStore)) ∧
    ((∃ ok, (AuthService.login { email := "a@x.com", password := "Str0ng!Pass" } "users"
        [demoUser] demoStore demoCfg 99 2000).1 = .ok ok) ∧
      ∀ v ∈ (AuthService.login { email := "a@x.com", password := "Str0ng!Pass" } "users"
        [demoUser] demoStore demoCfg 99 2000).2.1,
        v.id = demoUser.id → v.loginAttempts = 0 ∧ v.lockedUntil = none) :=
  ⟨login_lockout_contract.1 { email := "a@x.com", password := "wrong" } "users"
      [demoAttemptUser] demoStore demoCfg 99 1000 demoAttemptUser
      (by decide) (by decide) (by decide) (by decide) (by decide) (by decide),
   login_lockout_contract.2.1 { email := "a@x.com", password := "Str0ng!Pass" } "users"
      [demoLockedUser] demoStore demoCfg 99 1000 demoLockedUser 5000
      (by decide) (by decide) (by decide),
   login_lockout_contract.2.2 { email := "a@x.com", password := "Str0ng!Pass" } "users"
      [demoUser] demoStore demoCfg 99 2000 demoUser
      (by decide) (by decide) (by decide) (by decide) (by decide) (by decide)⟩

/-- C6: a credential change invalidates sessions — after a successful
`resetPassword` no session of the identity's email is active in any entity,
and after a successful `changePassword` every session of that email in the
service's entity is deactivated (hence in particular all sessions other
than the requesting one). -/
theorem credential_change_invalidates_sessions :
    (∀ (token newPassword : String) (users : List AuthUser) (st : SessionStore)
       (now : Nat) (user : AuthUser),
      AuthRepository.findByResetToken users token now = some user →
      (AuthService.resetPassword token newPassword users st now).1 = true ∧
      ∀ s ∈ (AuthService.resetPassword token newPassword users st now).2.2.sessions,
        s.userEmail = user.email → s.isActive = false) ∧
    (∀ (email currentPassword newPassword authEntity : String)
       (users : List AuthUser) (st : SessionStore) (now : Nat) (user : AuthUser),
      AuthRepository.findByEmailWithPassword users email = some user →
      comparePassword currentPassword user.password = true →
      (AuthService.changePassword email currentPassword newPassword authEntity
        users st now).1 = true ∧
      ∀ s ∈ (AuthService.changePassword email currentPassword newPassword authEntity
        users st now).2.2.sessions,
        s.userEmail = email → s.authEntity = authEntity → s.isActive = false) := by
  constructor
  · intro token newPassword users st now user hfind
    unfold AuthService.resetPassword SessionService.logoutUserFromAllEntities
    rw [hfind]
    exact ⟨rfl, deactivateAllUserSessions_inactive st user.email now⟩
  · intro email currentPassword newPassword authEntity users st now user hfind hcmp
    unfold AuthService.changePassword SessionService.logoutUserFromEntity
    rw [hfind]
    simp only []
    rw [if_neg (by simp [hcmp])]
    exact ⟨rfl, deactivateUserSessionsInEntity_inactive st email authEntity now⟩

/-- C6 witness: both conclusions at a concrete identity carrying a live
reset token, against the demo store. -/
theorem credential_change_invalidates_sessions_witness :
    ((AuthService.resetPassword "tok" "N3w!Passw0rd" [demoResetUser] demoStore 1000).1 = true ∧
      ∀ s ∈ (AuthService.resetPassword "tok" "N3w!Passw0rd" [demoResetUser] demoStore 1000).2.2.sessions,
        s.userEmail = demoResetUser.email → s.isActive = false) ∧
    ((AuthService.changePassword "a@x.com" "Str0ng!Pass" "N3w!Passw0rd" "users"
        [demoUser] demoStore 1000).1 = true ∧
      ∀ s ∈ (AuthService.changePassword "a@x.com" "Str0ng!Pass" "N3w!Passw0rd" "users"
        [demoUser] demoStore 1000).2.2.sessions,
        s.userEmail = "a@x.com" → s.authEntity = "users" → s.isActive = false) :=
  ⟨credential_change_invalidates_sessions.1 "tok" "N3w!Passw0rd" [demoResetUser]
      demoStore 1000 demoResetUser (by decide),
   credential_change_invalidates_sessions.2 "a@x.com" "Str0ng!Pass" "N3w!Passw0rd"
      "users" [demoUser] demoStore 1000 demoUser (by decide) (by decide)⟩

/-- C9: account-enumeration resistance of the forgot-password endpoint — for
a registered and an unregistered email the outward response is identical;
internally the unknown-email path silently no-ops. -/
theorem forgotPassword_enumeration_resistant (e1 e2 resetToken : String)
    (expires : Nat) (users : List AuthUser)
    (h1 : e1 ≠ "") (h2 : e2 ≠ "")
    (_hreg : (AuthRepository.findByEmail users e1).isSome = true)
    (_hnot : AuthRepository.findByEmail users e2 = none) :
    (AuthController.forgotPassword e1 resetToken expires users).1 =
    (AuthController.forgotPassword e2 resetToken expires users).1 := by
  unfold AuthController.forgotPassword
  rw [if_neg (by simpa using h1), if_neg (by simpa using h2)]

/-- C9 witness: the identical outward response for a registered and an
unregistered email against the demo identity table. -/
theorem forgotPassword_enumeration_resistant_witness :
    (AuthController.forgotPassword "a@x.com" "tok" 99 [demoUser]).1 =
    (AuthController.forgotPassword "b@y.com" "tok" 99 [demoUser]).1 :=
  forgotPassword_enumeration_resistant "a@x.com" "b@y.com" "tok" 99 [demoUser]
    (by decide) (by decide) (by decide) (by decide)

/-- C10: the role claim in the tokens returned by
`SessionService.createSession` does not depend on the caller-supplied
`data.role` — two invocations differing only in `data.role` return
identical results, since the provisional pair is issued with no role and the
final pair always takes the `roles` value fetched by user id. -/
theorem createSession_role_claim_independent (d : SessionCreateData)
    (r1 r2 : Option String) (tempId : Nat) (users : List AuthUser)
    (st : SessionStore) (now : Nat) :
    SessionService.createSession { d with role := r1 } tempId users st now =
    SessionService.createSession { d with role := r2 } tempId users st now := rfl

end StackModular
